import Mathlib

/-!
Shallow embedding of `src/script.js`, a client-side weather lookup widget,
together with theorems settling the specification claims about it.

Modelling conventions:
  * The DOM elements the script writes to are collected into an explicit
    `AppState` record; `classList.add("hidden")` / `classList.remove("hidden")`
    become boolean `…Hidden` fields.
  * `AppState.stateLog` is a ghost field recording the argument of every
    `toggleState` call, and `AppState.fetchCount` is a ghost counter of
    network fetches performed; the real code has neither, they only make
    temporal claims ("never entered LOADING", "no fetch happened") statable.
  * The two network calls are modelled by passing the HTTP response a call
    would observe as an explicit argument (`HttpResp`); `response.json()` is
    modelled as an already-parsed body.  URL construction (line 47-49, 65)
    has no observable effect besides the fetch itself and is not modelled.
  * JS numbers arriving in API payloads are modelled as `ℚ` (or `ℤ` for the
    integral humidity field); `Math.round` is `⌊x + 1/2⌋`, which matches the
    JS half-up rounding rule.
-/

namespace WeatherApp

/-- `UNITS.CELSIUS` (script.js line 6). -/
def UNITS_CELSIUS : String := "metric"

/-- `UNITS.FAHRENHEIT` (script.js line 7). -/
def UNITS_FAHRENHEIT : String := "imperial"

/-- `STATES.LOADING` (script.js line 14). -/
def STATES_LOADING : String := "loading"

/-- `STATES.DISPLAY` (script.js line 15). -/
def STATES_DISPLAY : String := "display"

/-- `STATES.ERROR` (script.js line 16). -/
def STATES_ERROR : String := "error"

/-- Modelled from the spec: `CONFIG.ICON_URL`, the icon base URL constant
imported from `config.js`, a file not present under `src/`.  The spec calls it
a static constant; its concrete value is irrelevant to every claim. -/
def ICON_URL : String := "https://openweathermap.org/img/wn"

/-- `data.weather[i]` entries: `{description, icon}`. -/
structure WeatherInfo where
  description : String
  icon : String
  deriving DecidableEq, Repr

/-- `data.main`: `{temp, humidity}`. -/
structure MainData where
  temp : ℚ
  humidity : ℤ
  deriving DecidableEq, Repr

/-- `data.wind`: `{speed}`. -/
structure WindData where
  speed : ℚ
  deriving DecidableEq, Repr

/-- `data.coord`: `{lat, lon}`. -/
structure Coord where
  lat : ℚ
  lon : ℚ
  deriving DecidableEq, Repr

/-- Parsed current-weather payload, the shape `displayCurrentWeather` and
`performWeatherSearch` read: `{name, main, weather, wind, coord}`. -/
structure WeatherData where
  name : String
  main : MainData
  weather : List WeatherInfo
  wind : WindData
  coord : Coord
  deriving DecidableEq, Repr

/-- One 3-hour forecast entry of the forecast payload's `list`:
`{dt, dt_txt, main, weather}`. -/
structure ForecastItem where
  dt : ℕ
  dt_txt : String
  main : MainData
  weather : List WeatherInfo
  deriving DecidableEq, Repr

/-- Parsed forecast payload: `{list}`. -/
structure ForecastBody where
  list : List ForecastItem
  deriving DecidableEq, Repr

/-- An HTTP response as the code observes it: `response.ok` plus the parsed
JSON body (reading the body of a non-ok response never happens in the code,
so carrying a body in that case is harmless). -/
structure HttpResp (α : Type) where
  ok : Bool
  body : α
  deriving DecidableEq, Repr

/-- One rendered forecast card (the three pieces of `card.innerHTML`,
script.js lines 105-109). -/
structure Card where
  day : String
  iconSrc : String
  iconAlt : String
  temp : String
  deriving DecidableEq, Repr

/-- The mutable state the script touches: the DOM slots it writes, the three
visibility containers, the module-level `currentUnit`, the persisted
`localStorage` entry, plus the two ghost fields described in the header. -/
structure AppState where
  loadingHidden : Bool
  weatherDisplayHidden : Bool
  errorMsgHidden : Bool
  errorText : String
  cityName : String
  temp : String
  description : String
  humidity : String
  wind : String
  weatherIconSrc : String
  weatherIconAlt : String
  forecastCards : List Card
  unitText : String
  currentUnit : String
  storedTempUnit : Option String
  cityInputValue : String
  stateLog : List String
  fetchCount : ℕ
  deriving DecidableEq, Repr

/-- JS `Math.round`: rounds half up (`Math.round (-2.5) = -2`). -/
def jsRound (x : ℚ) : ℤ := ⌊x + 1/2⌋

/-- JS `s.includes(pat)`: substring containment. -/
def strIncludes (s pat : String) : Bool := decide (pat.data <:+: s.data)

/-- The characters JS `String.prototype.trim` strips: the ECMAScript
WhiteSpace and LineTerminator sets (tab, LF, VT, FF, CR, space, NBSP,
Ogham space mark, the en-quad..hair-space range, LS, PS, narrow NBSP,
medium mathematical space, ideographic space, BOM). -/
def jsWhitespace (c : Char) : Bool :=
  c == ' ' || c == '\t' || c == '\n' || c == '\r' ||
  c == '\u000B' || c == '\u000C' || c == ' ' ||
  decide (0x1680 = c.toNat) ||
  (decide (0x2000 ≤ c.toNat) && decide (c.toNat ≤ 0x200A)) ||
  decide (0x2028 = c.toNat) || decide (0x2029 = c.toNat) ||
  decide (0x202F = c.toNat) || decide (0x205F = c.toNat) ||
  decide (0x3000 = c.toNat) || decide (0xFEFF = c.toNat)

/-- JS `s.trim()`: drop leading and trailing `jsWhitespace` characters. -/
def jsTrim (s : String) : String :=
  String.mk (((s.data.dropWhile jsWhitespace).reverse.dropWhile jsWhitespace).reverse)

/-- `toggleState` (script.js lines 118-136): hide all three containers, then
reveal the one matching `state`; an unknown `state` reveals none.  The ghost
`stateLog` records the call. -/
def toggleState (state : String) (a : AppState) : AppState :=
  let a := { a with
    loadingHidden := true
    errorMsgHidden := true
    weatherDisplayHidden := true
    stateLog := a.stateLog ++ [state] }
  if state = STATES_LOADING then { a with loadingHidden := false }
  else if state = STATES_DISPLAY then { a with weatherDisplayHidden := false }
  else if state = STATES_ERROR then { a with errorMsgHidden := false }
  else a

/-- `showError` (script.js lines 142-145): write the message into the error
panel's text and switch to the error state. -/
def showError (message : String) (a : AppState) : AppState :=
  toggleState STATES_ERROR { a with errorText := message }

/-- `isValidCityInput` (script.js lines 152-154): truthy city, trimmed length
in (0, 100]. -/
def isValidCityInput (city : String) : Bool :=
  city != "" && decide (0 < (jsTrim city).length) &&
    decide ((jsTrim city).length ≤ 100)

/-- The names of the containers currently visible (not `hidden`), in a fixed
order; the claims about "exactly one visible panel" are phrased through it. -/
def visiblePanels (a : AppState) : List String :=
  (if a.loadingHidden then [] else [STATES_LOADING])
    ++ (if a.weatherDisplayHidden then [] else [STATES_DISPLAY])
    ++ (if a.errorMsgHidden then [] else [STATES_ERROR])

/-- The filter of `fetchForecast` (script.js line 73): keep the entries whose
`dt_txt` contains `"12:00:00"`. -/
def dailyForecast (l : List ForecastItem) : List ForecastItem :=
  l.filter (fun item => strIncludes item.dt_txt "12:00:00")

/-- `fetchWeather` (script.js lines 46-56) as a function of the observed
response: non-ok status throws the coordinate- or city-specific message,
otherwise the parsed body is returned. -/
def fetchWeather (resp : HttpResp WeatherData) (isCoords : Bool) :
    Except String WeatherData :=
  if resp.ok = false then
    .error (if isCoords then "Unable to fetch weather for your location"
            else "City not found")
  else .ok resp.body

/-- `fetchForecast` (script.js lines 64-74) as a function of the observed
response: non-ok status throws, otherwise the payload's list filtered to the
noon entries is returned. -/
def fetchForecast (resp : HttpResp ForecastBody) :
    Except String (List ForecastItem) :=
  if resp.ok = false then .error "Unable to fetch forecast data"
  else .ok (dailyForecast resp.body.list)

/-- The unit symbol expression `currentUnit === UNITS.CELSIUS ? '°C' : '°F'`
that the script inlines at lines 83, 99, 255 and 276. -/
def tempSymbolOf (u : String) : String :=
  if u = UNITS_CELSIUS then "°C" else "°F"

/-- `new Date(dt * 1000).toLocaleDateString('en', { weekday: 'short' })`
(script.js line 102): the abbreviated English weekday of a unix timestamp.
The browser formats in the local timezone; the embedding fixes UTC (the unix
epoch was a Thursday).  No claim depends on the produced text. -/
def weekdayShort (dt : ℕ) : String :=
  match (dt / 86400 + 4) % 7 with
  | 0 => "Sun"
  | 1 => "Mon"
  | 2 => "Tue"
  | 3 => "Wed"
  | 4 => "Thu"
  | 5 => "Fri"
  | _ => "Sat"

/-- One card built by the `days.forEach` body of `displayForecast`
(script.js lines 101-111).  `day.weather[0]` is modelled with `headD`; on an
empty `weather` array the JS would throw, a case no claim exercises. -/
def forecastCard (u : String) (day : ForecastItem) : Card :=
  let w0 := day.weather.headD ⟨"", ""⟩
  { day := weekdayShort day.dt
    iconSrc := ICON_URL ++ "/" ++ w0.icon ++ ".png"
    iconAlt := w0.description
    temp := toString (jsRound day.main.temp) ++ tempSymbolOf u }

/-- `displayForecast` (script.js lines 97-112): clear the container, then
append one card per day in order. -/
def displayForecast (days : List ForecastItem) (a : AppState) : AppState :=
  { a with forecastCards := days.map (forecastCard a.currentUnit) }

/-- `displayCurrentWeather` (script.js lines 81-91): overwrite the six
current-weather display slots.  `data.weather[0]` is modelled with `headD`;
on an empty `weather` array the JS would throw, a case no claim exercises. -/
def displayCurrentWeather (data : WeatherData) (a : AppState) : AppState :=
  let w0 := data.weather.headD ⟨"", ""⟩
  { a with
    cityName := data.name
    temp := toString (jsRound data.main.temp) ++ tempSymbolOf a.currentUnit
    description := w0.description
    humidity := toString data.main.humidity ++ "%"
    wind := toString (jsRound data.wind.speed) ++ " "
              ++ (if a.currentUnit = UNITS_CELSIUS then "km/h" else "mph")
    weatherIconSrc := ICON_URL ++ "/" ++ w0.icon ++ "@2x.png"
    weatherIconAlt := w0.description }

/-- `performWeatherSearch` (script.js lines 218-232): LOADING, fetch current
weather, render it, fetch the forecast, render it, DISPLAY; any failure is
caught once and turned into `showError` of its message.  The responses the
two network calls would observe are passed explicitly; the ghost
`fetchCount` is bumped at each performed fetch (the forecast fetch only
happens when the first call succeeded).  The coordinates forwarded to
`fetchForecast` (line 225) only enter the URL and are not modelled. -/
def performWeatherSearch (wResp : HttpResp WeatherData)
    (fResp : HttpResp ForecastBody) (isCoords : Bool) (a : AppState) :
    AppState :=
  let a1 := toggleState STATES_LOADING a
  let a1 := { a1 with fetchCount := a1.fetchCount + 1 }
  match fetchWeather wResp isCoords with
  | .error msg => showError msg a1
  | .ok weatherData =>
    let a2 := displayCurrentWeather weatherData a1
    let a2 := { a2 with fetchCount := a2.fetchCount + 1 }
    match fetchForecast fResp with
    | .error msg => showError msg a2
    | .ok forecastData =>
      toggleState STATES_DISPLAY (displayForecast forecastData a2)

/-- `handleSearch` (script.js lines 160-174): trim the input, reject empty
input, reject invalid input, otherwise run the search.  The trimmed city is
only used for validation and the request URL, so it is not stored. -/
def handleSearch (wResp : HttpResp WeatherData) (fResp : HttpResp ForecastBody)
    (a : AppState) : AppState :=
  let city := jsTrim a.cityInputValue
  if city = "" ∨ city.length = 0 then
    showError "Please enter a city name" a
  else if isValidCityInput city = false then
    showError "Please enter a valid city name" a
  else
    performWeatherSearch wResp fResp false a

/-- What `navigator.geolocation.getCurrentPosition` delivers to its callbacks:
either a position or an error object whose `code` is 1 (`PERMISSION_DENIED`),
2 (`POSITION_UNAVAILABLE`) or 3 (`TIMEOUT`). -/
inductive GeoOutcome where
  | position (lat lon : ℚ)
  | geoError (code : ℕ)
  deriving DecidableEq, Repr

/-- `handleGeolocation` (script.js lines 179-211): bail out with an error if
the capability is missing; otherwise go to LOADING and either search with the
returned coordinates or map the failure code to a message.  The `{timeout:
10000}` option is platform behaviour folded into which `GeoOutcome` arrives. -/
def handleGeolocation (geoSupported : Bool) (outcome : GeoOutcome)
    (wResp : HttpResp WeatherData) (fResp : HttpResp ForecastBody)
    (a : AppState) : AppState :=
  if geoSupported = false then
    showError "Geolocation is not supported by this browser" a
  else
    let a := toggleState STATES_LOADING a
    match outcome with
    | .position _lat _lon => performWeatherSearch wResp fResp true a
    | .geoError code =>
      let message :=
        if code = 1 then "Location access denied. Please enable location services."
        else if code = 2 then "Location information is unavailable."
        else if code = 3 then "Location request timed out."
        else "Location access denied"
      showError message a

/-- `handleUnitToggle` (script.js lines 247-265): flip the unit, persist it,
update the unit button text, and — when the weather display is visible and a
real city name is shown — re-run the search for that city.  The re-run's
network responses are passed explicitly, and its asynchronous completion is
modelled as running to the end. -/
def handleUnitToggle (wResp : HttpResp WeatherData)
    (fResp : HttpResp ForecastBody) (a : AppState) : AppState :=
  let newUnit := if a.currentUnit = UNITS_CELSIUS then UNITS_FAHRENHEIT
                 else UNITS_CELSIUS
  let a := { a with
    currentUnit := newUnit
    storedTempUnit := some newUnit
    unitText := if newUnit = UNITS_CELSIUS then "°C" else "°F" }
  if a.weatherDisplayHidden = false then
    let cityName := a.cityName
    if cityName ≠ "" ∧ cityName ≠ "City Name" then
      performWeatherSearch wResp fResp false a
    else a
  else a

/-- `init` (script.js lines 268-280): set the unit button text from the
persisted unit and show the (empty) weather display.  Event wiring is the
dispatch to the handlers above. -/
def init (a : AppState) : AppState :=
  toggleState STATES_DISPLAY { a with unitText := tempSymbolOf a.currentUnit }

/-- The calendar-day part of a forecast entry's `dt_txt`
(`"YYYY-MM-DD hh:mm:ss"`): its first ten characters. -/
def calendarDay (e : ForecastItem) : String :=
  String.mk (e.dt_txt.data.take 10)

/-- A concrete state used by the witness theorems. -/
def sampleState : AppState :=
  { loadingHidden := true, weatherDisplayHidden := false, errorMsgHidden := true
    errorText := "", cityName := "City Name", temp := "", description := ""
    humidity := "", wind := "", weatherIconSrc := "", weatherIconAlt := ""
    forecastCards := [], unitText := "°C", currentUnit := "metric"
    storedTempUnit := some "metric", cityInputValue := "", stateLog := []
    fetchCount := 0 }

/-- C1: after `toggleState s` for a valid state `s`, exactly the container
corresponding to `s` is visible and the other two are hidden. -/
theorem toggleState_exactly_one_visible (s : String) (a : AppState)
    (h : s ∈ [STATES_LOADING, STATES_DISPLAY, STATES_ERROR]) :
    visiblePanels (toggleState s a) = [s] := by
  simp only [STATES_LOADING, STATES_DISPLAY, STATES_ERROR,
    List.mem_cons, List.not_mem_nil, or_false] at h
  rcases h with h | h | h <;> subst h <;> rfl

/-- Witness for C1 at the concrete state `sampleState` and state `"loading"`. -/
theorem toggleState_exactly_one_visible_witness :
    "loading" ∈ [STATES_LOADING, STATES_DISPLAY, STATES_ERROR] ∧
      visiblePanels (toggleState "loading" sampleState) = ["loading"] :=
  ⟨by decide, toggleState_exactly_one_visible "loading" sampleState (by decide)⟩

/-- C10: `toggleState` on a state outside {loading, display, error} hides all
three containers and reveals none. -/
theorem toggleState_unknown_state_hides_all (s : String) (a : AppState)
    (h : s ∉ [STATES_LOADING, STATES_DISPLAY, STATES_ERROR]) :
    visiblePanels (toggleState s a) = [] := by
  simp only [STATES_LOADING, STATES_DISPLAY, STATES_ERROR,
    List.mem_cons, List.not_mem_nil, or_false, not_or] at h
  obtain ⟨h1, h2, h3⟩ := h
  simp [toggleState, visiblePanels, STATES_LOADING, STATES_DISPLAY,
    STATES_ERROR, h1, h2, h3]

/-- Witness for C10 at the concrete state `sampleState` and state `"bogus"`. -/
theorem toggleState_unknown_state_hides_all_witness :
    "bogus" ∉ [STATES_LOADING, STATES_DISPLAY, STATES_ERROR] ∧
      visiblePanels (toggleState "bogus" sampleState) = [] :=
  ⟨by decide, toggleState_unknown_state_hides_all "bogus" sampleState (by decide)⟩

/-- C2: `isValidCityInput` accepts a city exactly when its trimmed length lies
in [1, 100]. -/
theorem isValidCityInput_iff (city : String) :
    isValidCityInput city = true ↔
      1 ≤ (jsTrim city).length ∧ (jsTrim city).length ≤ 100 := by
  simp only [isValidCityInput, Bool.and_eq_true, decide_eq_true_eq,
    bne_iff_ne, ne_eq]
  constructor
  · rintro ⟨⟨-, h1⟩, h2⟩
    exact ⟨h1, h2⟩
  · rintro ⟨h1, h2⟩
    refine ⟨⟨?_, h1⟩, h2⟩
    intro hcity
    rw [hcity] at h1
    exact absurd h1 (by decide)

/-- C3: the daily-forecast filter returns exactly the input entries whose
`dt_txt` contains `"12:00:00"`, in their original relative order (it is a
sublist of the input). -/
theorem dailyForecast_spec (l : List ForecastItem) :
    (dailyForecast l).Sublist l ∧
      (∀ e, e ∈ dailyForecast l ↔
        e ∈ l ∧ strIncludes e.dt_txt "12:00:00" = true) := by
  refine ⟨List.filter_sublist l, fun e => ?_⟩
  simp [dailyForecast, List.mem_filter]

/-- A concrete parsed current-weather payload used by witnesses. -/
def sampleWeatherData : WeatherData :=
  { name := "Paris"
    main := { temp := 154/10, humidity := 60 }
    weather := [{ description := "clear sky", icon := "01d" }]
    wind := { speed := 5 }
    coord := { lat := 4885/100, lon := 235/100 } }

/-- A concrete parsed forecast payload used by witnesses: two noon entries on
consecutive days around a mid-afternoon entry, chronological. -/
def sampleForecastBody : ForecastBody :=
  { list :=
      [ { dt := 1700049600, dt_txt := "2023-11-15 12:00:00"
          main := { temp := 12, humidity := 70 }
          weather := [{ description := "few clouds", icon := "02d" }] },
        { dt := 1700060400, dt_txt := "2023-11-15 15:00:00"
          main := { temp := 13, humidity := 65 }
          weather := [{ description := "few clouds", icon := "02d" }] },
        { dt := 1700136000, dt_txt := "2023-11-16 12:00:00"
          main := { temp := 9, humidity := 80 }
          weather := [{ description := "rain", icon := "10d" }] } ] }

/-- C5: a non-ok current-weather response makes `fetchWeather` fail with
"City not found" on the city path and with the geolocation message on the
coordinate path, and the city-path orchestration then shows "City not found"
in the error panel, which is the only visible container. -/
theorem fetchWeather_failure_messages (wResp : HttpResp WeatherData)
    (fResp : HttpResp ForecastBody) (a : AppState) (h : wResp.ok = false) :
    fetchWeather wResp false = .error "City not found" ∧
    fetchWeather wResp true = .error "Unable to fetch weather for your location" ∧
    (performWeatherSearch wResp fResp false a).errorText = "City not found" ∧
    visiblePanels (performWeatherSearch wResp fResp false a) = [STATES_ERROR] := by
  refine ⟨?_, ?_, ?_, ?_⟩ <;>
    simp [performWeatherSearch, fetchWeather, h, showError, toggleState,
      visiblePanels, STATES_LOADING, STATES_DISPLAY, STATES_ERROR]

/-- Witness for C5 at a concrete non-ok response and `sampleState`. -/
theorem fetchWeather_failure_messages_witness :
    (HttpResp.mk false sampleWeatherData).ok = false ∧
    (fetchWeather ⟨false, sampleWeatherData⟩ false = .error "City not found" ∧
     fetchWeather ⟨false, sampleWeatherData⟩ true =
       .error "Unable to fetch weather for your location" ∧
     (performWeatherSearch ⟨false, sampleWeatherData⟩
        ⟨true, sampleForecastBody⟩ false sampleState).errorText = "City not found" ∧
     visiblePanels (performWeatherSearch ⟨false, sampleWeatherData⟩
        ⟨true, sampleForecastBody⟩ false sampleState) = [STATES_ERROR]) :=
  ⟨rfl, fetchWeather_failure_messages ⟨false, sampleWeatherData⟩
    ⟨true, sampleForecastBody⟩ sampleState rfl⟩

/-- C4: when the current-weather fetch succeeds but the forecast fetch fails,
the orchestration ends with only the error panel visible showing the forecast
failure message, while the six current-weather display slots still hold
exactly what the render step wrote for the fetched payload. -/
theorem forecast_failure_keeps_rendered_weather (wResp : HttpResp WeatherData)
    (fResp : HttpResp ForecastBody) (isCoords : Bool) (a : AppState)
    (hw : wResp.ok = true) (hf : fResp.ok = false) :
    visiblePanels (performWeatherSearch wResp fResp isCoords a) = [STATES_ERROR] ∧
    (performWeatherSearch wResp fResp isCoords a).errorText =
      "Unable to fetch forecast data" ∧
    (performWeatherSearch wResp fResp isCoords a).cityName =
      (displayCurrentWeather wResp.body a).cityName ∧
    (performWeatherSearch wResp fResp isCoords a).temp =
      (displayCurrentWeather wResp.body a).temp ∧
    (performWeatherSearch wResp fResp isCoords a).description =
      (displayCurrentWeather wResp.body a).description ∧
    (performWeatherSearch wResp fResp isCoords a).humidity =
      (displayCurrentWeather wResp.body a).humidity ∧
    (performWeatherSearch wResp fResp isCoords a).wind =
      (displayCurrentWeather wResp.body a).wind ∧
    (performWeatherSearch wResp fResp isCoords a).weatherIconSrc =
      (displayCurrentWeather wResp.body a).weatherIconSrc ∧
    (performWeatherSearch wResp fResp isCoords a).weatherIconAlt =
      (displayCurrentWeather wResp.body a).weatherIconAlt := by
  refine ⟨?_, ?_, ?_, ?_, ?_, ?_, ?_, ?_, ?_⟩ <;>
    simp [performWeatherSearch, fetchWeather, fetchForecast, hw, hf,
      displayCurrentWeather, showError, toggleState, visiblePanels,
      STATES_LOADING, STATES_DISPLAY, STATES_ERROR]

/-- Witness for C4 at a concrete ok weather response, non-ok forecast
response, and `sampleState`. -/
theorem forecast_failure_keeps_rendered_weather_witness :
    (HttpResp.mk true sampleWeatherData).ok = true ∧
    (HttpResp.mk false sampleForecastBody).ok = false ∧
    (visiblePanels (performWeatherSearch ⟨true, sampleWeatherData⟩
        ⟨false, sampleForecastBody⟩ false sampleState) = [STATES_ERROR] ∧
     (performWeatherSearch ⟨true, sampleWeatherData⟩
        ⟨false, sampleForecastBody⟩ false sampleState).errorText =
       "Unable to fetch forecast data" ∧
     (performWeatherSearch ⟨true, sampleWeatherData⟩
        ⟨false, sampleForecastBody⟩ false sampleState).cityName =
       (displayCurrentWeather sampleWeatherData sampleState).cityName ∧
     (performWeatherSearch ⟨true, sampleWeatherData⟩
        ⟨false, sampleForecastBody⟩ false sampleState).temp =
       (displayCurrentWeather sampleWeatherData sampleState).temp ∧
     (performWeatherSearch ⟨true, sampleWeatherData⟩
        ⟨false, sampleForecastBody⟩ false sampleState).description =
       (displayCurrentWeather sampleWeatherData sampleState).description ∧
     (performWeatherSearch ⟨true, sampleWeatherData⟩
        ⟨false, sampleForecastBody⟩ false sampleState).humidity =
       (displayCurrentWeather sampleWeatherData sampleState).humidity ∧
     (performWeatherSearch ⟨true, sampleWeatherData⟩
        ⟨false, sampleForecastBody⟩ false sampleState).wind =
       (displayCurrentWeather sampleWeatherData sampleState).wind ∧
     (performWeatherSearch ⟨true, sampleWeatherData⟩
        ⟨false, sampleForecastBody⟩ false sampleState).weatherIconSrc =
       (displayCurrentWeather sampleWeatherData sampleState).weatherIconSrc ∧
     (performWeatherSearch ⟨true, sampleWeatherData⟩
        ⟨false, sampleForecastBody⟩ false sampleState).weatherIconAlt =
       (displayCurrentWeather sampleWeatherData sampleState).weatherIconAlt) :=
  ⟨rfl, rfl, forecast_failure_keeps_rendered_weather ⟨true, sampleWeatherData⟩
    ⟨false, sampleForecastBody⟩ false sampleState rfl rfl⟩

/-- C8: on whitespace-only input, search shows "Please enter a city name",
only the error panel is visible, and no network fetch is performed. -/
theorem handleSearch_whitespace_only (wResp : HttpResp WeatherData)
    (fResp : HttpResp ForecastBody) (a : AppState)
    (h : jsTrim a.cityInputValue = "") :
    (handleSearch wResp fResp a).errorText = "Please enter a city name" ∧
    visiblePanels (handleSearch wResp fResp a) = [STATES_ERROR] ∧
    (handleSearch wResp fResp a).fetchCount = a.fetchCount := by
  refine ⟨?_, ?_, ?_⟩ <;>
    simp [handleSearch, h, showError, toggleState, visiblePanels,
      STATES_LOADING, STATES_DISPLAY, STATES_ERROR]

/-- The sample state with a whitespace-only search input. -/
def whitespaceInputState : AppState :=
  { sampleState with cityInputValue := "  " }

/-- Witness for C8 at the concrete input `"  "`. -/
theorem handleSearch_whitespace_only_witness :
    jsTrim whitespaceInputState.cityInputValue = "" ∧
    ((handleSearch ⟨true, sampleWeatherData⟩ ⟨true, sampleForecastBody⟩
        whitespaceInputState).errorText = "Please enter a city name" ∧
     visiblePanels (handleSearch ⟨true, sampleWeatherData⟩
        ⟨true, sampleForecastBody⟩ whitespaceInputState) = [STATES_ERROR] ∧
     (handleSearch ⟨true, sampleWeatherData⟩ ⟨true, sampleForecastBody⟩
        whitespaceInputState).fetchCount = whitespaceInputState.fetchCount) :=
  ⟨by decide, handleSearch_whitespace_only ⟨true, sampleWeatherData⟩
    ⟨true, sampleForecastBody⟩ whitespaceInputState (by decide)⟩

/-- C9: when the geolocation capability is absent, the handler immediately
shows "Geolocation is not supported by this browser", only the error panel is
visible, and the toggle log shows the only state ever entered is ERROR — in
particular LOADING is never entered. -/
theorem handleGeolocation_unsupported (outcome : GeoOutcome)
    (wResp : HttpResp WeatherData) (fResp : HttpResp ForecastBody)
    (a : AppState) :
    (handleGeolocation false outcome wResp fResp a).errorText =
      "Geolocation is not supported by this browser" ∧
    visiblePanels (handleGeolocation false outcome wResp fResp a) =
      [STATES_ERROR] ∧
    (handleGeolocation false outcome wResp fResp a).stateLog =
      a.stateLog ++ [STATES_ERROR] := by
  refine ⟨?_, ?_, ?_⟩ <;>
    simp [handleGeolocation, showError, toggleState, visiblePanels,
      STATES_LOADING, STATES_DISPLAY, STATES_ERROR]

/-- The weather search never changes the module-level unit. -/
theorem performWeatherSearch_currentUnit (wResp : HttpResp WeatherData)
    (fResp : HttpResp ForecastBody) (isCoords : Bool) (a : AppState) :
    (performWeatherSearch wResp fResp isCoords a).currentUnit = a.currentUnit := by
  cases hok : wResp.ok <;> cases hfok : fResp.ok <;>
    simp [performWeatherSearch, fetchWeather, fetchForecast, hok, hfok,
      showError, toggleState, displayCurrentWeather, displayForecast,
      STATES_LOADING, STATES_DISPLAY, STATES_ERROR]

/-- The weather search never changes the persisted unit preference. -/
theorem performWeatherSearch_storedTempUnit (wResp : HttpResp WeatherData)
    (fResp : HttpResp ForecastBody) (isCoords : Bool) (a : AppState) :
    (performWeatherSearch wResp fResp isCoords a).storedTempUnit =
      a.storedTempUnit := by
  cases hok : wResp.ok <;> cases hfok : fResp.ok <;>
    simp [performWeatherSearch, fetchWeather, fetchForecast, hok, hfok,
      showError, toggleState, displayCurrentWeather, displayForecast,
      STATES_LOADING, STATES_DISPLAY, STATES_ERROR]

/-- The weather search never changes the unit button text. -/
theorem performWeatherSearch_unitText (wResp : HttpResp WeatherData)
    (fResp : HttpResp ForecastBody) (isCoords : Bool) (a : AppState) :
    (performWeatherSearch wResp fResp isCoords a).unitText = a.unitText := by
  cases hok : wResp.ok <;> cases hfok : fResp.ok <;>
    simp [performWeatherSearch, fetchWeather, fetchForecast, hok, hfok,
      showError, toggleState, displayCurrentWeather, displayForecast,
      STATES_LOADING, STATES_DISPLAY, STATES_ERROR]

/-- One unit toggle flips the module-level unit, whichever branch the
conditional re-search takes. -/
theorem handleUnitToggle_currentUnit (wResp : HttpResp WeatherData)
    (fResp : HttpResp ForecastBody) (a : AppState) :
    (handleUnitToggle wResp fResp a).currentUnit =
      (if a.currentUnit = UNITS_CELSIUS then UNITS_FAHRENHEIT
       else UNITS_CELSIUS) := by
  simp only [handleUnitToggle]
  split <;> [skip; rfl]
  split <;> [exact performWeatherSearch_currentUnit _ _ _ _; rfl]

/-- One unit toggle persists the flipped unit, whichever branch the
conditional re-search takes. -/
theorem handleUnitToggle_storedTempUnit (wResp : HttpResp WeatherData)
    (fResp : HttpResp ForecastBody) (a : AppState) :
    (handleUnitToggle wResp fResp a).storedTempUnit =
      some (if a.currentUnit = UNITS_CELSIUS then UNITS_FAHRENHEIT
            else UNITS_CELSIUS) := by
  simp only [handleUnitToggle]
  split <;> [skip; rfl]
  split <;> [exact performWeatherSearch_storedTempUnit _ _ _ _; rfl]

/-- One unit toggle sets the button text from the flipped unit, whichever
branch the conditional re-search takes. -/
theorem handleUnitToggle_unitText (wResp : HttpResp WeatherData)
    (fResp : HttpResp ForecastBody) (a : AppState) :
    (handleUnitToggle wResp fResp a).unitText =
      (if (if a.currentUnit = UNITS_CELSIUS then UNITS_FAHRENHEIT
           else UNITS_CELSIUS) = UNITS_CELSIUS then "°C" else "°F") := by
  simp only [handleUnitToggle]
  split <;> [skip; rfl]
  split <;> [exact performWeatherSearch_unitText _ _ _ _; rfl]

/-- C6: from a consistent unit state (unit one of metric/imperial, storage and
button text matching it), toggling units twice — each toggle with whatever
network responses its conditional re-search observes — restores the
module-level unit, the persisted preference, and the displayed unit symbol. -/
theorem handleUnitToggle_involution (w1 w2 : HttpResp WeatherData)
    (f1 f2 : HttpResp ForecastBody) (a : AppState)
    (hu : a.currentUnit = UNITS_CELSIUS ∨ a.currentUnit = UNITS_FAHRENHEIT)
    (hs : a.storedTempUnit = some a.currentUnit)
    (ht : a.unitText = (if a.currentUnit = UNITS_CELSIUS then "°C" else "°F")) :
    (handleUnitToggle w2 f2 (handleUnitToggle w1 f1 a)).currentUnit =
      a.currentUnit ∧
    (handleUnitToggle w2 f2 (handleUnitToggle w1 f1 a)).storedTempUnit =
      a.storedTempUnit ∧
    (handleUnitToggle w2 f2 (handleUnitToggle w1 f1 a)).unitText =
      a.unitText := by
  rcases hu with hu | hu <;>
    simp [handleUnitToggle_currentUnit, handleUnitToggle_storedTempUnit,
      handleUnitToggle_unitText, hu, hs, ht,
      UNITS_CELSIUS, UNITS_FAHRENHEIT]

/-- Witness for C6 at the concrete consistent state `sampleState`. -/
theorem handleUnitToggle_involution_witness :
    (sampleState.currentUnit = UNITS_CELSIUS ∨
       sampleState.currentUnit = UNITS_FAHRENHEIT) ∧
    sampleState.storedTempUnit = some sampleState.currentUnit ∧
    sampleState.unitText =
      (if sampleState.currentUnit = UNITS_CELSIUS then "°C" else "°F") ∧
    ((handleUnitToggle ⟨true, sampleWeatherData⟩ ⟨true, sampleForecastBody⟩
        (handleUnitToggle ⟨false, sampleWeatherData⟩ ⟨false, sampleForecastBody⟩
          sampleState)).currentUnit = sampleState.currentUnit ∧
     (handleUnitToggle ⟨true, sampleWeatherData⟩ ⟨true, sampleForecastBody⟩
        (handleUnitToggle ⟨false, sampleWeatherData⟩ ⟨false, sampleForecastBody⟩
          sampleState)).storedTempUnit = sampleState.storedTempUnit ∧
     (handleUnitToggle ⟨true, sampleWeatherData⟩ ⟨true, sampleForecastBody⟩
        (handleUnitToggle ⟨false, sampleWeatherData⟩ ⟨false, sampleForecastBody⟩
          sampleState)).unitText = sampleState.unitText) :=
  ⟨by decide, by decide, by decide,
    handleUnitToggle_involution ⟨false, sampleWeatherData⟩
      ⟨true, sampleWeatherData⟩ ⟨false, sampleForecastBody⟩
      ⟨true, sampleForecastBody⟩ sampleState (by decide) (by decide) (by decide)⟩

/-- A forecast payload the 5-day/3-hour API would never send, but which the
code accepts unchanged: seven entries all marked noon, the first two out of
chronological order, and the last two sharing a calendar day. -/
def c7CexBody : ForecastBody :=
  { list :=
      [ { dt := 300000, dt_txt := "2024-01-02 12:00:00"
          main := { temp := 1, humidity := 50 }
          weather := [{ description := "clear sky", icon := "01d" }] },
        { dt := 200000, dt_txt := "2024-01-01 12:00:00"
          main := { temp := 2, humidity := 50 }
          weather := [{ description := "clear sky", icon := "01d" }] },
        { dt := 400000, dt_txt := "2024-01-03 12:00:00"
          main := { temp := 3, humidity := 50 }
          weather := [{ description := "clear sky", icon := "01d" }] },
        { dt := 500000, dt_txt := "2024-01-04 12:00:00"
          main := { temp := 4, humidity := 50 }
          weather := [{ description := "clear sky", icon := "01d" }] },
        { dt := 600000, dt_txt := "2024-01-05 12:00:00"
          main := { temp := 5, humidity := 50 }
          weather := [{ description := "clear sky", icon := "01d" }] },
        { dt := 700000, dt_txt := "2024-01-06 12:00:00"
          main := { temp := 6, humidity := 50 }
          weather := [{ description := "clear sky", icon := "01d" }] },
        { dt := 800000, dt_txt := "2024-01-06 12:00:00"
          main := { temp := 7, humidity := 50 }
          weather := [{ description := "clear sky", icon := "01d" }] } ] }

/-- What `fetchForecast` returns on `c7CexBody`: every entry is a noon entry,
so the filter keeps all seven. -/
def c7CexDays : List ForecastItem := c7CexBody.list

/-- Counterexample to C7 as stated: a successful forecast fetch whose result
has seven entries, is not chronological, and repeats a calendar day — the
code filters but never sorts, deduplicates, or truncates. -/
theorem fetchForecast_unbounded_counterexample :
    fetchForecast ⟨true, c7CexBody⟩ = .ok c7CexDays ∧
    5 < c7CexDays.length ∧
    ¬ c7CexDays.Pairwise (fun e1 e2 => e1.dt ≤ e2.dt) ∧
    ¬ c7CexDays.Pairwise (fun e1 e2 => calendarDay e1 ≠ calendarDay e2) :=
  ⟨rfl, by decide, by decide, by decide⟩

/-- C7 amended: a successful forecast fetch returns exactly the noon entries
of the response list in their original order; hence the result is
chronological, has at most one entry per calendar day, and has length at most
5 whenever the response's noon entries do — which the 5-day/3-hour API
contract provides but the code itself does not enforce. -/
theorem fetchForecast_ok_ordered_bounded (resp : HttpResp ForecastBody)
    (days : List ForecastItem)
    (hok : fetchForecast resp = .ok days)
    (hchron : resp.body.list.Pairwise (fun e1 e2 => e1.dt ≤ e2.dt))
    (hlen : (dailyForecast resp.body.list).length ≤ 5)
    (hday : (dailyForecast resp.body.list).Pairwise
      (fun e1 e2 => calendarDay e1 ≠ calendarDay e2)) :
    days.Pairwise (fun e1 e2 => e1.dt ≤ e2.dt) ∧
    days.length ≤ 5 ∧
    days.Pairwise (fun e1 e2 => calendarDay e1 ≠ calendarDay e2) := by
  have hdays : days = dailyForecast resp.body.list := by
    cases hko : resp.ok
    · simp [fetchForecast, hko] at hok
    · simp [fetchForecast, hko] at hok
      exact hok.symm
  subst hdays
  exact ⟨List.Pairwise.sublist (List.filter_sublist _) hchron, hlen, hday⟩

/-- The filtered days of `sampleForecastBody`. -/
def sampleForecastDays : List ForecastItem :=
  dailyForecast sampleForecastBody.list

/-- Witness for the amended C7 at the concrete payload `sampleForecastBody`. -/
theorem fetchForecast_ok_ordered_bounded_witness :
    (fetchForecast ⟨true, sampleForecastBody⟩ = .ok sampleForecastDays ∧
     sampleForecastBody.list.Pairwise (fun e1 e2 => e1.dt ≤ e2.dt) ∧
     (dailyForecast sampleForecastBody.list).length ≤ 5 ∧
     (dailyForecast sampleForecastBody.list).Pairwise
       (fun e1 e2 => calendarDay e1 ≠ calendarDay e2)) ∧
    (sampleForecastDays.Pairwise (fun e1 e2 => e1.dt ≤ e2.dt) ∧
     sampleForecastDays.length ≤ 5 ∧
     sampleForecastDays.Pairwise
       (fun e1 e2 => calendarDay e1 ≠ calendarDay e2)) :=
  ⟨⟨rfl, by decide, by decide, by decide⟩,
   fetchForecast_ok_ordered_bounded ⟨true, sampleForecastBody⟩
     sampleForecastDays rfl (by decide) (by decide) (by decide)⟩

end WeatherApp
